import Mathlib

/-!
Shallow embedding of the authentication, session and authorization core of
the panelcp backend (Go sources: the `auth` service, the user service's
permission check, the Gin middleware role check, the GORM models and the
auth configuration).

Modelling conventions:
* `time.Time` values are modelled as `Nat` instants (seconds); `time.Duration`
  configuration values are `Nat` numbers of seconds.  `time.Time.After` is the
  strict order on these instants.
* `uuid.UUID` values are modelled as `Nat`.  The source generates fresh UUIDs
  in GORM `BeforeCreate` hooks and fresh refresh tokens from `crypto/rand`;
  the embedding passes such fresh values in as explicit parameters.
* bcrypt is modelled as an injective one-way tagging function together with the
  comparison the source performs (`bcrypt.CompareHashAndPassword`); every
  theorem that depends on a password being wrong takes the comparison outcome
  as a hypothesis, so nothing rests on the internal shape of the model hash.
* A JWT is modelled in decoded form: a header algorithm, a claims record and a
  signature.  An HMAC signature is modelled ideally (EUF-CMA idealisation): a
  tag is exactly the data it was computed over together with the key, and
  verification is equality with the recomputed tag.  Tampered tokens are the
  tokens whose `claims` differ from the payload their signature was made over.
* GORM queries are modelled over an explicit database state (`DB`): `First`
  is `List.find?` in row order, `Save`/`Updates` by primary key is a `List.map`
  replacement, `Create` appends, and the Redis mirror is an association list.
* Go errors created with `fmt.Errorf` are modelled by the `AuthError`
  enumeration; `errorMessage` reproduces the exact message string the source
  formats, so indistinguishability of errors can be stated on the wire format.
-/

namespace MyNodeCP

/-- JWT signing algorithms relevant to the middleware's key function.  The Go
key function accepts any method of type `*jwt.SigningMethodHMAC` (HS256, HS384,
HS512) and rejects every other method with "unexpected signing method". -/
inductive SigAlg where
  | HS256
  | HS384
  | HS512
  | RS256
  | ES256
  | algNone
deriving DecidableEq

/-- Whether the algorithm is the symmetric HMAC family, i.e. whether the Go
type assertion `token.Method.(*jwt.SigningMethodHMAC)` succeeds. -/
def SigAlg.isHMAC : SigAlg → Bool
  | .HS256 => true
  | .HS384 => true
  | .HS512 => true
  | _ => false

/-- `jwt.RegisteredClaims` as populated by `generateAccessToken`. -/
structure RegisteredClaims where
  expiresAt : Nat
  issuedAt : Nat
  notBefore : Nat
  issuer : String
deriving DecidableEq

/-- The `Claims` struct of the auth service: identity claims plus the
registered JWT claims. -/
structure Claims where
  userID : Nat
  username : String
  email : String
  roles : List String
  sessionID : Nat
  registered : RegisteredClaims
deriving DecidableEq

/-- Ideal model of an HMAC tag: the tag is the key, algorithm and payload it
was computed over; verification recomputes and compares. -/
structure MACTag where
  secret : String
  alg : SigAlg
  payload : Claims
deriving DecidableEq

/-- Computing the HMAC tag over a claims payload with the server secret. -/
def computeMAC (secret : String) (alg : SigAlg) (payload : Claims) : MACTag :=
  { secret := secret, alg := alg, payload := payload }

/-- A decoded JWT: declared algorithm, claims, signature.  A token whose
`claims` disagree with `sig.payload` is a tampered token; a token whose
`sig.secret` is not the server secret was signed under another key. -/
structure Token where
  alg : SigAlg
  claims : Claims
  sig : MACTag
deriving DecidableEq

/-- `models.Role` (fields relevant to the auth core). -/
structure Role where
  id : Nat
  name : String
  displayName : String
  description : String
  isSystem : Bool
deriving DecidableEq

/-- `models.User` (fields relevant to the auth core).  `roles` is the
`Roles` association as loaded by `Preload("Roles")`. -/
structure User where
  id : Nat
  username : String
  email : String
  passwordHash : String
  firstName : String
  lastName : String
  isActive : Bool
  isTwoFactorEnabled : Bool
  twoFactorSecret : String
  lastLoginAt : Option Nat
  lastLoginIP : String
  failedLoginCount : Nat
  lockedUntil : Option Nat
  roles : List Role
deriving DecidableEq

/-- `models.Session`.  `token` is `none` while the row still has its zero
value, i.e. before the generated access token is saved into it. -/
structure Session where
  id : Nat
  userID : Nat
  token : Option Token
  refreshToken : String
  ipAddress : String
  userAgent : String
  expiresAt : Nat
  lastUsedAt : Nat
  createdAt : Nat
  revokedAt : Option Nat
deriving DecidableEq

/-- `models.Permission`: a named (resource, action) pair. -/
structure Permission where
  id : Nat
  name : String
  resource : String
  action : String
deriving DecidableEq

/-- `models.UserRole`: user-to-role assignment row. -/
structure UserRole where
  userID : Nat
  roleID : Nat
deriving DecidableEq

/-- `models.RolePermission`: role-to-permission grant row. -/
structure RolePermission where
  roleID : Nat
  permissionID : Nat
deriving DecidableEq

/-- `models.SecurityEvent` (fields the auth core writes). -/
structure SecurityEvent where
  userID : Option Nat
  eventType : String
  severity : String
  source : String
  ipAddress : String
  description : String
deriving DecidableEq

/-- The relational store. -/
structure DB where
  users : List User
  sessions : List Session
  roles : List Role
  userRoles : List UserRole
  rolePermissions : List RolePermission
  permissions : List Permission
  securityEvents : List SecurityEvent
deriving DecidableEq

/-- The Redis mirror: association list from session id to owning user id. -/
def Cache := List (Nat × Nat)
deriving DecidableEq

/-- `config.AuthConfig`. -/
structure AuthConfig where
  jwtSecret : String
  jwtExpiration : Nat
  refreshExpiration : Nat
  passwordMinLength : Nat
  passwordRequireUpper : Bool
  passwordRequireLower : Bool
  passwordRequireDigit : Bool
  passwordRequireSpecial : Bool
  twoFactorEnabled : Bool
  sessionTimeout : Nat
deriving DecidableEq

/-- The auth `Service` receiver: database handle, Redis handle, config. -/
structure Service where
  db : DB
  redis : Cache
  config : AuthConfig

/-- The possible error outcomes of the auth core, one constructor per
distinct `fmt.Errorf` site reachable in the embedded operations. -/
inductive AuthError where
  | invalidCredentials
  | accountDisabled
  | accountLocked (unlockAt : Nat)
  | twoFactorRequired
  | invalidTwoFactorCode
  | weakPassword (minLength : Nat)
  | duplicateIdentity
  | invalidToken
  | invalidRefreshToken
deriving DecidableEq

/-- The exact error string the source formats for each outcome, for stating
indistinguishability of errors on the wire. -/
def errorMessage : AuthError → String
  | .invalidCredentials => "invalid credentials"
  | .accountDisabled => "account is disabled"
  | .accountLocked t => "account is locked until " ++ toString t
  | .twoFactorRequired => "two-factor code required"
  | .invalidTwoFactorCode => "invalid two-factor code"
  | .weakPassword n => "password must be at least " ++ toString n ++ " characters long"
  | .duplicateIdentity => "username or email already exists"
  | .invalidToken => "invalid token"
  | .invalidRefreshToken => "invalid refresh token"

/-- Model of the bcrypt hash of a password (opaque one-way capability). -/
def bcryptHash (password : String) : String := "bcrypt$" ++ password

/-- Model of `bcrypt.CompareHashAndPassword`: true iff the hash matches the
password. -/
def bcryptCompare (hash password : String) : Bool := hash == bcryptHash password

/-- `models.LoginRequest`. -/
structure LoginRequest where
  username : String
  password : String
  twoFactorCode : String
  ipAddress : String
  userAgent : String
deriving DecidableEq

/-- `models.LoginResponse`. -/
structure LoginResponse where
  accessToken : Token
  refreshToken : String
  expiresAt : Nat
  user : User
deriving DecidableEq

/-- `models.RegisterRequest`. -/
structure RegisterRequest where
  username : String
  email : String
  password : String
  firstName : String
  lastName : String
deriving DecidableEq

/-! ### Store and cache primitives -/

/-- `First` with `username = ? OR email = ?`: the first row matching the
identifier by username or email. -/
def findUserByIdentifier (db : DB) (identifier : String) : Option User :=
  db.users.find? (fun u => u.username == identifier || u.email == identifier)

/-- `Save(&user)`: replace the row with the same primary key. -/
def saveUser (db : DB) (u : User) : DB :=
  { db with users := db.users.map (fun v => if v.id == u.id then u else v) }

/-- `Create(&securityEvent)`: append the row. -/
def addSecurityEvent (db : DB) (ev : SecurityEvent) : DB :=
  { db with securityEvents := db.securityEvents ++ [ev] }

/-- `Save(&session)`: replace the row with the same primary key. -/
def saveSession (db : DB) (s : Session) : DB :=
  { db with sessions := db.sessions.map (fun v => if v.id == s.id then s else v) }

/-- `redis.Set` on key `session:<id>`: replace or insert the mirror entry. -/
def cacheSet (c : Cache) (sessionID userID : Nat) : Cache :=
  (sessionID, userID) :: (c : List (Nat × Nat)).filter (fun kv => kv.1 ≠ sessionID)

/-- `redis.Del` on key `session:<id>`: drop the mirror entry (a no-op when the
key is absent, as in Redis). -/
def cacheDel (c : Cache) (sessionID : Nat) : Cache :=
  (c : List (Nat × Nat)).filter (fun kv => kv.1 ≠ sessionID)

/-- The Go zero value of `models.User`, produced by a `Preload` whose target
row is absent. -/
def zeroUser : User :=
  { id := 0, username := "", email := "", passwordHash := "", firstName := "",
    lastName := "", isActive := false, isTwoFactorEnabled := false,
    twoFactorSecret := "", lastLoginAt := none, lastLoginIP := "",
    failedLoginCount := 0, lockedUntil := none, roles := [] }

/-- The owning user of a session as materialised by `Preload("User.Roles")`. -/
def sessionUser (db : DB) (s : Session) : User :=
  (db.users.find? (fun u => u.id == s.userID)).getD zeroUser

/-! ### Helper operations of the auth service -/

/-- `LockedUntil != nil && LockedUntil.After(now)`. -/
def lockedAt (u : User) (now : Nat) : Bool :=
  match u.lockedUntil with
  | some t => now < t
  | none => false

/-- 30 minutes, in seconds. -/
def thirtyMinutes : Nat := 30 * 60

/-- `incrementFailedLogin`: bump the counter, lock for 30 minutes once the
counter has reached 5, and build the medium-severity security event the
source records.  Returns the saved user row and the created event. -/
def incrementFailedLogin (now : Nat) (u : User) (ipAddress : String) :
    User × SecurityEvent :=
  let u1 := { u with failedLoginCount := u.failedLoginCount + 1 }
  let u2 := if u1.failedLoginCount ≥ 5
    then { u1 with lockedUntil := some (now + thirtyMinutes) }
    else u1
  (u2,
   { userID := some u.id, eventType := "login_failed", severity := "medium",
     source := "web", ipAddress := ipAddress,
     description := "Failed login attempt for user " ++ u.username })

/-- `verifyTwoFactorCode`, exactly as the source ships it: the body is a
placeholder that returns `true` for every secret and code. -/
def verifyTwoFactorCode (secret code : String) : Bool :=
  true

/-- `validatePassword`, exactly as the source ships it: only the minimum
length is enforced (`len(password) < PasswordMinLength`); the character-class
toggles of `AuthConfig` are never consulted. -/
def validatePassword (cfg : AuthConfig) (password : String) :
    Except AuthError Unit :=
  if password.length < cfg.passwordMinLength then
    .error (.weakPassword cfg.passwordMinLength)
  else
    .ok ()

/-- `generateAccessToken`: embed user id, username, email, role names and
session id, with expiry `now + JWTExpiration`, issued-at and not-before `now`,
issuer "mynodecp", signed HS256 under the server secret. -/
def generateAccessToken (cfg : AuthConfig) (now : Nat) (user : User)
    (sessionID : Nat) : Token :=
  let claims : Claims :=
    { userID := user.id, username := user.username, email := user.email,
      roles := user.roles.map (fun r => r.name), sessionID := sessionID,
      registered :=
        { expiresAt := now + cfg.jwtExpiration, issuedAt := now,
          notBefore := now, issuer := "mynodecp" } }
  { alg := .HS256, claims := claims, sig := computeMAC cfg.jwtSecret .HS256 claims }

/-! ### The five exposed operations -/

deriving instance DecidableEq for Except

/-- Result of `Login`/`RefreshToken`: the returned value or error, plus the
states of the store and the cache after the call. -/
structure LoginResult where
  res : Except AuthError LoginResponse
  db : DB
  cache : Cache
deriving DecidableEq

/-- Result of `Register`. -/
structure RegisterResult where
  res : Except AuthError User
  db : DB
deriving DecidableEq

/-- Result of `Logout`. -/
structure LogoutResult where
  res : Except AuthError Unit
  db : DB
  cache : Cache
deriving DecidableEq

/-- `Service.Login`.  `freshSessionId` models the UUID the session row gets in
its `BeforeCreate` hook; `freshRefreshToken` models the `crypto/rand` output
of `generateRefreshToken`. -/
def Login (cfg : AuthConfig) (db : DB) (cache : Cache) (now : Nat)
    (freshSessionId : Nat) (freshRefreshToken : String) (req : LoginRequest) :
    LoginResult :=
  match findUserByIdentifier db req.username with
  | none => ⟨.error .invalidCredentials, db, cache⟩
  | some user =>
    if user.isActive = false then
      ⟨.error .accountDisabled, db, cache⟩
    else if lockedAt user now then
      ⟨.error (.accountLocked (user.lockedUntil.getD 0)), db, cache⟩
    else if bcryptCompare user.passwordHash req.password = false then
      let p := incrementFailedLogin now user req.ipAddress
      ⟨.error .invalidCredentials, addSecurityEvent (saveUser db p.1) p.2, cache⟩
    else if user.isTwoFactorEnabled && (req.twoFactorCode == "") then
      ⟨.error .twoFactorRequired, db, cache⟩
    else if user.isTwoFactorEnabled &&
        !(verifyTwoFactorCode user.twoFactorSecret req.twoFactorCode) then
      ⟨.error .invalidTwoFactorCode, db, cache⟩
    else
      let user1 :=
        { user with
          failedLoginCount := 0, lockedUntil := none,
          lastLoginAt := some now, lastLoginIP := req.ipAddress }
      let db1 := saveUser db user1
      let session0 : Session :=
        { id := freshSessionId, userID := user.id, token := none,
          refreshToken := "", ipAddress := req.ipAddress,
          userAgent := req.userAgent, expiresAt := now + cfg.refreshExpiration,
          lastUsedAt := now, createdAt := now, revokedAt := none }
      let db2 := { db1 with sessions := db1.sessions ++ [session0] }
      let access := generateAccessToken cfg now user freshSessionId
      let session1 :=
        { session0 with
          token := some access, refreshToken := freshRefreshToken }
      let db3 := saveSession db2 session1
      let cache1 := cacheSet cache freshSessionId user.id
      ⟨.ok { accessToken := access, refreshToken := freshRefreshToken,
             expiresAt := session0.expiresAt, user := user1 }, db3, cache1⟩

/-- `Service.Register`.  `freshUserId` and `freshRoleId` model the UUIDs the
`BeforeCreate` hooks would mint for the new user row and for a lazily created
default role row. -/
def Register (cfg : AuthConfig) (db : DB) (freshUserId freshRoleId : Nat)
    (req : RegisterRequest) : RegisterResult :=
  match validatePassword cfg req.password with
  | .error e => ⟨.error e, db⟩
  | .ok _ =>
    if db.users.any (fun u => u.username == req.username || u.email == req.email) then
      ⟨.error .duplicateIdentity, db⟩
    else
      let user : User :=
        { id := freshUserId, username := req.username, email := req.email,
          passwordHash := bcryptHash req.password, firstName := req.firstName,
          lastName := req.lastName, isActive := true,
          isTwoFactorEnabled := false, twoFactorSecret := "",
          lastLoginAt := none, lastLoginIP := "", failedLoginCount := 0,
          lockedUntil := none, roles := [] }
      let db1 := { db with users := db.users ++ [user] }
      match db1.roles.find? (fun r => r.name == "user") with
      | some role =>
        let ur : UserRole := { userID := user.id, roleID := role.id }
        ⟨.ok user, { db1 with userRoles := db1.userRoles ++ [ur] }⟩
      | none =>
        let role : Role :=
          { id := freshRoleId, name := "user", displayName := "User",
            description := "Default user role", isSystem := true }
        let ur : UserRole := { userID := user.id, roleID := role.id }
        ⟨.ok user,
         { db1 with roles := db1.roles ++ [role],
                    userRoles := db1.userRoles ++ [ur] }⟩

/-- `Service.ValidateToken`: the jwt/v5 parse pipeline with the service's key
function.  Rejects a non-HMAC method ("unexpected signing method"), an
invalid signature, a violated not-before bound (valid iff `nbf ≤ now`) and a
violated expiry bound (valid iff `now < exp`).  It takes no store or cache
argument because the source reads nothing but `config.JWTSecret`. -/
def ValidateToken (secret : String) (now : Nat) (t : Token) :
    Except AuthError Claims :=
  if t.alg.isHMAC = false then .error .invalidToken
  else if t.sig ≠ computeMAC secret t.alg t.claims then .error .invalidToken
  else if now < t.claims.registered.notBefore then .error .invalidToken
  else if t.claims.registered.expiresAt ≤ now then .error .invalidToken
  else .ok t.claims

/-- `ValidateToken` as invoked on the full service receiver. -/
def validateTokenOnService (s : Service) (now : Nat) (t : Token) :
    Except AuthError Claims :=
  ValidateToken s.config.jwtSecret now t

/-- The `First` lookup of `RefreshToken`: `refresh_token = ? AND revoked_at
IS NULL AND expires_at > now`. -/
def findSessionByRefresh (db : DB) (refreshToken : String) (now : Nat) :
    Option Session :=
  db.sessions.find? (fun s =>
    s.refreshToken == refreshToken && s.revokedAt == none && decide (now < s.expiresAt))

/-- The session row as `Service.RefreshToken` saves it back: new access token,
`LastUsedAt` stamped, everything else (id, owner, refresh token, expiry)
unchanged. -/
def refreshedSession (cfg : AuthConfig) (db : DB) (now : Nat) (s : Session) :
    Session :=
  { s with token := some (generateAccessToken cfg now (sessionUser db s) s.id),
           lastUsedAt := now }

/-- `Service.RefreshToken`. -/
def RefreshToken (cfg : AuthConfig) (db : DB) (cache : Cache) (now : Nat)
    (refreshToken : String) : LoginResult :=
  match findSessionByRefresh db refreshToken now with
  | none => ⟨.error .invalidRefreshToken, db, cache⟩
  | some s =>
    let user := sessionUser db s
    let s1 := refreshedSession cfg db now s
    ⟨.ok { accessToken := generateAccessToken cfg now user s.id,
           refreshToken := refreshToken, expiresAt := s.expiresAt, user := user },
     saveSession db s1, cacheSet cache s1.id user.id⟩

/-- `Service.Logout`: set `revoked_at = now` on every row matching the id
(the primary-key `Update` matches at most one), delete the cache mirror,
return success. -/
def Logout (db : DB) (cache : Cache) (now : Nat) (sessionID : Nat) :
    LogoutResult :=
  ⟨.ok (),
   { db with sessions := db.sessions.map (fun s =>
       if s.id == sessionID then { s with revokedAt := some now } else s) },
   cacheDel cache sessionID⟩

/-! ### RBAC -/

/-- `UserService.HasPermission`: the SQL existence check
`permissions ⋈ role_permissions ⋈ user_roles` filtered on the user id and the
(resource, action) pair; true iff the join count is positive.  The `roles`
table itself is not part of the join. -/
def HasPermission (db : DB) (userID : Nat) (resource action : String) : Bool :=
  db.permissions.any (fun p =>
    p.resource == resource && p.action == action &&
    db.rolePermissions.any (fun rp =>
      rp.permissionID == p.id &&
      db.userRoles.any (fun ur =>
        ur.roleID == rp.roleID && ur.userID == userID)))

/-- The role test inside the `RequireRole` middleware: the user's role-name
list (taken from validated token claims) passes iff it contains the required
role or the literal role name "admin". -/
def RequireRole (userRoles : List String) (role : String) : Bool :=
  userRoles.any (fun userRole => userRole == role || userRole == "admin")

/-! ### Concrete fixtures (for witnesses and counterexamples) -/

/-- The auth configuration shipped in the repository's `config.yaml`:
15-minute JWTs, 7-day refresh tokens, minimum password length 8 with all four
character-class toggles on, 24-hour session timeout. -/
def cfgDefault : AuthConfig :=
  { jwtSecret := "topsecret", jwtExpiration := 900,
    refreshExpiration := 604800, passwordMinLength := 8,
    passwordRequireUpper := true, passwordRequireLower := true,
    passwordRequireDigit := true, passwordRequireSpecial := true,
    twoFactorEnabled := true, sessionTimeout := 86400 }

/-- The default "user" role. -/
def roleUser : Role :=
  { id := 5, name := "user", displayName := "User",
    description := "Default user role", isSystem := true }

/-- A role literally named "admin", holding no permission grants. -/
def roleAdmin : Role :=
  { id := 10, name := "admin", displayName := "Administrator",
    description := "", isSystem := true }

/-- An active user with a known password and no two-factor. -/
def alice : User :=
  { zeroUser with
    id := 1, username := "alice", email := "alice@x.com",
    passwordHash := bcryptHash "Str0ngPass", isActive := true,
    roles := [roleUser] }

/-- An active user whose account is locked until instant 1000. -/
def bob : User :=
  { zeroUser with
    id := 2, username := "bob", email := "bob@x.com",
    passwordHash := bcryptHash "hunter2hunter2", isActive := true,
    failedLoginCount := 5, lockedUntil := some 1000 }

/-- An active user with two-factor enabled. -/
def carol : User :=
  { zeroUser with
    id := 3, username := "carol", email := "carol@x.com",
    passwordHash := bcryptHash "correct-horse", isActive := true,
    isTwoFactorEnabled := true, twoFactorSecret := "JBSWY3DP" }

/-- An empty store. -/
def dbEmpty : DB := ⟨[], [], [], [], [], [], []⟩

/-- A store holding only `alice` with the "user" role assigned. -/
def dbAlice : DB :=
  ⟨[alice], [], [roleUser], [⟨1, 5⟩], [], [], []⟩

/-- A store holding only the locked user `bob`. -/
def dbBob : DB := ⟨[bob], [], [], [], [], [], []⟩

/-- A store holding only the two-factor user `carol`. -/
def dbCarol : DB := ⟨[carol], [], [], [], [], [], []⟩

/-- A store in which user 1 holds a role literally named "admin" and no
permission or grant rows exist at all. -/
def dbAdminOnly : DB :=
  ⟨[{ alice with roles := [roleAdmin] }], [], [roleAdmin], [⟨1, 10⟩], [], [], []⟩

/-- A live (unrevoked, unexpired-until-5000) session owned by `alice`. -/
def liveSession : Session :=
  { id := 21, userID := 1, token := none, refreshToken := "live-token",
    ipAddress := "10.0.0.1", userAgent := "cli", expiresAt := 5000,
    lastUsedAt := 0, createdAt := 0, revokedAt := none }

/-- `dbAlice` plus the live session. -/
def dbWithSession : DB := { dbAlice with sessions := [liveSession] }

/-- A store holding a single session already revoked at instant 10. -/
def dbRevoked : DB :=
  ⟨[], [{ liveSession with id := 31, revokedAt := some 10 }], [], [], [], [], []⟩

/-- A login request for `alice` with the wrong password. -/
def reqAliceWrong : LoginRequest :=
  ⟨"alice", "wrongpass", "", "1.2.3.4", "ua"⟩

/-- A login request for `bob` with his correct password. -/
def reqBobRight : LoginRequest :=
  ⟨"bob", "hunter2hunter2", "", "1.2.3.4", "ua"⟩

/-- A login request for `carol`: correct password, non-empty (wrong)
two-factor code. -/
def reqCarolWrongCode : LoginRequest :=
  ⟨"carol", "correct-horse", "000000", "9.9.9.9", "cli"⟩

/-- A login request whose identifier matches no user of `dbAlice`. -/
def reqMallory : LoginRequest :=
  ⟨"mallory", "whatever", "", "1.2.3.4", "ua"⟩

/-- A registration request whose password is long enough but all lowercase:
no upper-case letter, no digit, no special character. -/
def reqDave : RegisterRequest :=
  ⟨"dave", "dave@x.com", "abcdefgh", "Dave", "D"⟩

/-- A token issued at instant 0 to `alice` for session 21 under `cfgDefault`;
it expires at instant 900. -/
def tokAlice : Token := generateAccessToken cfgDefault 0 alice 21

/-- A service whose store is `dbAlice`. -/
def svcA : Service := ⟨dbAlice, [], cfgDefault⟩

/-- A service with the same secret but a completely different store and a
non-empty cache. -/
def svcB : Service := ⟨dbRevoked, [(3, 4)], cfgDefault⟩

/-! ### Theorems -/

/-- C1 (counterexample): in a store where user 1 holds a role literally named
"admin" and no permission grants exist, `HasPermission` returns `false` for
("domain", "create") — refuting the claim that holding a role named "admin"
makes `hasPermission` return true for every (resource, action) pair. -/
theorem hasPermission_admin_bypass_cex :
    (∃ ur ∈ dbAdminOnly.userRoles, ur.userID = 1 ∧
      ∃ r ∈ dbAdminOnly.roles, r.id = ur.roleID ∧ r.name = "admin") ∧
    HasPermission dbAdminOnly 1 "domain" "create" = false := by
  constructor
  · exact ⟨⟨1, 10⟩, by decide, rfl, roleAdmin, by decide, rfl, rfl⟩
  · rfl

/-- C1 (amended): `HasPermission` is a pure existence check on the
`permissions ⋈ role_permissions ⋈ user_roles` join — true iff the user holds
a role granting the (resource, action) pair — with no special treatment of a
role named "admin"; the admin wildcard exists only in the `RequireRole`
middleware's role test, which passes iff the claimed role list contains the
required role or the literal name "admin". -/
theorem hasPermission_no_admin_bypass (db : DB) (userID : Nat)
    (resource action : String) (userRoles : List String) (role : String) :
    (HasPermission db userID resource action = true ↔
      ∃ p ∈ db.permissions, p.resource = resource ∧ p.action = action ∧
        ∃ rp ∈ db.rolePermissions, rp.permissionID = p.id ∧
          ∃ ur ∈ db.userRoles, ur.roleID = rp.roleID ∧ ur.userID = userID) ∧
    (RequireRole userRoles role = true ↔
      role ∈ userRoles ∨ "admin" ∈ userRoles) := by
  constructor
  · simp [HasPermission, List.any_eq_true, and_assoc]
  · simp only [RequireRole, List.any_eq_true, Bool.or_eq_true, beq_iff_eq]
    constructor
    · rintro ⟨x, hx, rfl | rfl⟩
      · exact Or.inl hx
      · exact Or.inr hx
    · rintro (h | h)
      · exact ⟨role, h, Or.inl rfl⟩
      · exact ⟨"admin", h, Or.inr rfl⟩

/-- A map that fixes every element of a list leaves the list unchanged. -/
theorem list_map_fix {α : Type} (f : α → α) :
    ∀ (l : List α), (∀ a ∈ l, f a = a) → l.map f = l := by
  intro l h
  induction l with
  | nil => rfl
  | cons a as ih =>
    simp only [List.map_cons, List.cons.injEq]
    exact ⟨h a (List.mem_cons_self a as),
           ih (fun x hx => h x (List.mem_cons_of_mem a hx))⟩

/-- C9 (counterexample): revoking an already-revoked session is not a no-op.
The store holds session 31 revoked at instant 10; calling `Logout` again at
instant 20 succeeds but overwrites the revocation timestamp with 20. -/
theorem logout_overwrites_revocation_cex :
    dbRevoked.sessions.map (fun s => s.revokedAt) = [some 10] ∧
    (Logout dbRevoked [] 20 31).res = .ok () ∧
    (Logout dbRevoked [] 20 31).db.sessions.map (fun s => s.revokedAt) =
      [some 20] ∧
    (some 20 : Option Nat) ≠ some 10 := by
  refine ⟨rfl, rfl, rfl, by decide⟩

/-- C9 (amended): `Logout` on an already-revoked session still returns
success, not an error, and repeating the call at the same instant is a no-op;
but each call (re)sets the revocation timestamp of the matching session to
the call's own current time, so a later second revoke overwrites the earlier
timestamp rather than leaving it unchanged. -/
theorem logout_idempotent_overwrite (db : DB) (cache : Cache)
    (now sid : Nat) :
    (Logout db cache now sid).res = .ok () ∧
    Logout (Logout db cache now sid).db (Logout db cache now sid).cache now sid =
      Logout db cache now sid ∧
    (∀ s ∈ (Logout db cache now sid).db.sessions, s.id = sid →
      s.revokedAt = some now) := by
  refine ⟨rfl, ?_, ?_⟩
  · simp only [Logout, cacheDel, LogoutResult.mk.injEq, DB.mk.injEq,
      List.map_map, true_and, List.filter_filter, and_true]
    constructor
    · apply List.map_congr_left
      intro a _
      by_cases h : a.id == sid
      · simp [Function.comp, h]
      · simp [Function.comp, h]
    · apply List.filter_congr
      intro kv _
      exact Bool.and_self _
  · intro s hs hid
    simp only [Logout, List.mem_map] at hs
    obtain ⟨a, _, rfl⟩ := hs
    by_cases h : a.id == sid
    · simp [h]
    · simp only [h, if_false] at hid ⊢
      exact absurd hid (by simpa using h)

/-- C9 (witness for the amended theorem): evaluated on the concrete revoked
store at instant 20 and session id 31. -/
theorem logout_idempotent_overwrite_witness :
    (Logout dbRevoked [] 20 31).res = .ok () ∧
    Logout (Logout dbRevoked [] 20 31).db (Logout dbRevoked [] 20 31).cache 20 31 =
      Logout dbRevoked [] 20 31 ∧
    (∀ s ∈ (Logout dbRevoked [] 20 31).db.sessions, s.id = 31 →
      s.revokedAt = some 20) :=
  logout_idempotent_overwrite dbRevoked [] 20 31

/-- C10: when no session row carries the target id, `Logout` still returns
success and the durable store is left completely unchanged; the absence of
the target is not reported to the caller. -/
theorem logout_missing_session_noop (db : DB) (cache : Cache)
    (now sid : Nat) (h : ∀ s ∈ db.sessions, s.id ≠ sid) :
    (Logout db cache now sid).res = .ok () ∧
    (Logout db cache now sid).db = db := by
  refine ⟨rfl, ?_⟩
  have hmap : db.sessions.map (fun s =>
      if s.id == sid then { s with revokedAt := some now } else s) =
      db.sessions := by
    apply list_map_fix
    intro s hs
    simp [h s hs]
  simp only [Logout, hmap]

/-- C10 (witness): on the store holding only the live session 21, logging out
the absent session id 99 succeeds and changes nothing. -/
theorem logout_missing_session_noop_witness :
    (∀ s ∈ dbWithSession.sessions, s.id ≠ 99) ∧
    (Logout dbWithSession [] 7 99).res = .ok () ∧
    (Logout dbWithSession [] 7 99).db = dbWithSession :=
  ⟨by decide, (logout_missing_session_noop dbWithSession [] 7 99 (by decide)).1,
   (logout_missing_session_noop dbWithSession [] 7 99 (by decide)).2⟩

/-- C3 (code evaluated at the failing input): `verifyTwoFactorCode` is a
placeholder that accepts every code, so a login for the two-factor user
`carol` with the correct password and a non-empty wrong code succeeds instead
of failing with the invalid-two-factor-code error.  The empty-code branch and
the untouched failed-login counter behave as claimed. -/
theorem login_accepts_any_nonempty_two_factor_code :
    (∀ secret code, verifyTwoFactorCode secret code = true) ∧
    (∃ resp, (Login cfgDefault dbCarol [] 100 7 "fresh" reqCarolWrongCode).res =
      .ok resp) ∧
    (Login cfgDefault dbCarol [] 100 7 "fresh"
      { reqCarolWrongCode with twoFactorCode := "" }).res =
      .error .twoFactorRequired ∧
    (Login cfgDefault dbCarol [] 100 7 "fresh" reqCarolWrongCode).db.users.map
      (fun u => u.failedLoginCount) = [0] := by
  exact ⟨fun _ _ => rfl, ⟨_, rfl⟩, rfl, rfl⟩

/-- C8 (code evaluated at the failing input): under the shipped configuration
(all four character-class toggles on), `Register` accepts the all-lowercase
password "abcdefgh" — `validatePassword` checks only the minimum length and
never consults the character-class toggles — and creates the user row.  Only
the minimum-length half of the claimed policy is enforced (and on that
failure no user row is created). -/
theorem register_ignores_character_class_toggles :
    cfgDefault.passwordRequireUpper = true ∧
    cfgDefault.passwordRequireDigit = true ∧
    cfgDefault.passwordRequireSpecial = true ∧
    (∀ c ∈ "abcdefgh".toList, ¬ c.isUpper ∧ ¬ c.isDigit) ∧
    (∃ u, (Register cfgDefault dbEmpty 9 11 reqDave).res = .ok u) ∧
    (Register cfgDefault dbEmpty 9 11 reqDave).db.users.length = 1 ∧
    (Register cfgDefault dbEmpty 9 11 { reqDave with password := "Ab1!" }).res =
      .error (.weakPassword 8) ∧
    (Register cfgDefault dbEmpty 9 11 { reqDave with password := "Ab1!" }).db =
      dbEmpty := by
  exact ⟨rfl, rfl, rfl, by decide, ⟨_, rfl⟩, rfl, rfl, rfl⟩

/-- C5: round-trip of the token codec.  A token issued to user `u` for
session `sid` at instant `tIssue` validates at any instant `tVal` from
issuance up to (strictly before) its expiry `tIssue + JWTExpiration`, and the
returned claims are exactly the embedded user id, username, email, role-name
list and session id; at any instant `tLate` at or after the expiry the same
token is rejected. -/
theorem token_roundtrip (cfg : AuthConfig) (u : User)
    (sid tIssue tVal tLate : Nat) (hnb : tIssue ≤ tVal)
    (hexp : tVal < tIssue + cfg.jwtExpiration)
    (hlate : tIssue + cfg.jwtExpiration ≤ tLate) :
    (∃ c, ValidateToken cfg.jwtSecret tVal (generateAccessToken cfg tIssue u sid) =
        .ok c ∧
      c.userID = u.id ∧ c.username = u.username ∧ c.email = u.email ∧
      c.roles = u.roles.map (fun r => r.name) ∧ c.sessionID = sid) ∧
    ValidateToken cfg.jwtSecret tLate (generateAccessToken cfg tIssue u sid) =
      .error .invalidToken := by
  have h1 : ¬ (tVal < tIssue) := by omega
  have h2 : ¬ (tIssue + cfg.jwtExpiration ≤ tVal) := by omega
  have h3 : ¬ (tLate < tIssue) := by omega
  have h4 : tIssue + cfg.jwtExpiration ≤ tLate := hlate
  constructor
  · refine ⟨(generateAccessToken cfg tIssue u sid).claims, ?_, rfl, rfl, rfl,
      rfl, rfl⟩
    simp [ValidateToken, generateAccessToken, SigAlg.isHMAC, computeMAC, h1, h2]
  · simp [ValidateToken, generateAccessToken, SigAlg.isHMAC, computeMAC, h3, h4]

/-- C5 (witness): under the shipped configuration (15-minute expiry), a token
issued to `alice` at instant 100 validates at instant 500 with the embedded
claims, and is rejected at instant 1000. -/
theorem token_roundtrip_witness :
    100 ≤ 500 ∧ 500 < 100 + cfgDefault.jwtExpiration ∧
    100 + cfgDefault.jwtExpiration ≤ 1000 ∧
    ((∃ c, ValidateToken cfgDefault.jwtSecret 500
        (generateAccessToken cfgDefault 100 alice 21) = .ok c ∧
      c.userID = alice.id ∧ c.username = alice.username ∧
      c.email = alice.email ∧ c.roles = alice.roles.map (fun r => r.name) ∧
      c.sessionID = 21) ∧
    ValidateToken cfgDefault.jwtSecret 1000
      (generateAccessToken cfgDefault 100 alice 21) = .error .invalidToken) :=
  ⟨by decide, by decide, by decide,
   token_roundtrip cfgDefault alice 21 100 500 1000 (by decide) (by decide)
     (by decide)⟩

/-- C6: `ValidateToken` rejects (with the invalid-token error) every token
whose declared signing scheme is not the expected symmetric MAC (HMAC) family,
every token whose signature does not recompute under the server secret, and
every token whose not-before or expiry bound is violated at the current time;
in every other case it succeeds, and its outcome is a function of the secret
alone — two services agreeing on `JWTSecret` but with arbitrary different
stores and caches validate identically, so the session store and cache are
never consulted. -/
theorem validateToken_rejection_and_stateless (secret : String) (now : Nat)
    (t : Token) :
    ((t.alg.isHMAC = false ∨ t.sig ≠ computeMAC secret t.alg t.claims ∨
      now < t.claims.registered.notBefore ∨
      t.claims.registered.expiresAt ≤ now) →
      ValidateToken secret now t = .error .invalidToken) ∧
    (ValidateToken secret now t = .error .invalidToken ∨
      ValidateToken secret now t = .ok t.claims) ∧
    (∀ s1 s2 : Service, s1.config.jwtSecret = secret →
      s2.config.jwtSecret = secret →
      validateTokenOnService s1 now t = validateTokenOnService s2 now t) := by
  refine ⟨?_, ?_, ?_⟩
  · intro h
    unfold ValidateToken
    rcases h with h | h | h | h
    · simp [h]
    · split_ifs <;> simp_all
    · split_ifs <;> simp_all
    · split_ifs <;> simp_all
  · unfold ValidateToken
    split_ifs <;> simp
  · intro s1 s2 h1 h2
    unfold validateTokenOnService
    rw [h1, h2]

/-- C6 (witness): the expired token `tokAlice` (expiry 900) is rejected at
instant 1000, and the two services `svcA`, `svcB` — same secret, different
stores and caches — agree on every validation of it. -/
theorem validateToken_rejection_and_stateless_witness :
    (tokAlice.alg.isHMAC = false ∨
      tokAlice.sig ≠ computeMAC cfgDefault.jwtSecret tokAlice.alg tokAlice.claims ∨
      (1000 : Nat) < tokAlice.claims.registered.notBefore ∨
      tokAlice.claims.registered.expiresAt ≤ 1000) ∧
    ValidateToken cfgDefault.jwtSecret 1000 tokAlice = .error .invalidToken ∧
    svcA.config.jwtSecret = cfgDefault.jwtSecret ∧
    svcB.config.jwtSecret = cfgDefault.jwtSecret ∧
    validateTokenOnService svcA 1000 tokAlice =
      validateTokenOnService svcB 1000 tokAlice := by
  have h : tokAlice.claims.registered.expiresAt ≤ 1000 := by decide
  exact ⟨Or.inr (Or.inr (Or.inr h)),
    (validateToken_rejection_and_stateless cfgDefault.jwtSecret 1000 tokAlice).1
      (Or.inr (Or.inr (Or.inr h))),
    rfl, rfl,
    (validateToken_rejection_and_stateless cfgDefault.jwtSecret 1000 tokAlice).2.2
      svcA svcB rfl rfl⟩

/-- C2: failed-login accounting and the lockout gate.  For a user found by
the identifier, active, and not locked at the current instant, a wrong
password makes `Login` fail with the invalid-credentials error while saving
the user with the failed-login counter incremented by one and appending a
medium-severity "login_failed" security event; once the incremented counter
has reached 5 the saved row's lockout-until is set to now + 30 minutes
(below 5 it is untouched).  And for a user whose lockout-until is in the
future, `Login` fails with the account-locked error carrying that unlock
time, for every password — the password is never verified and no state
changes. -/
theorem login_lockout_policy (cfg : AuthConfig) (db : DB) (cache : Cache)
    (now sid : Nat) (rt : String) (req : LoginRequest) (u : User)
    (hfind : findUserByIdentifier db req.username = some u)
    (hactive : u.isActive = true) :
    (lockedAt u now = false →
      bcryptCompare u.passwordHash req.password = false →
      ∃ u' ev,
        Login cfg db cache now sid rt req =
          ⟨.error .invalidCredentials,
           addSecurityEvent (saveUser db u') ev, cache⟩ ∧
        u'.failedLoginCount = u.failedLoginCount + 1 ∧
        ev.severity = "medium" ∧ ev.eventType = "login_failed" ∧
        ev.userID = some u.id ∧
        (5 ≤ u.failedLoginCount + 1 →
          u'.lockedUntil = some (now + thirtyMinutes)) ∧
        (u.failedLoginCount + 1 < 5 → u'.lockedUntil = u.lockedUntil)) ∧
    (∀ t, u.lockedUntil = some t → now < t → ∀ pw,
      Login cfg db cache now sid rt { req with password := pw } =
        ⟨.error (.accountLocked t), db, cache⟩) := by
  constructor
  · intro hlock hpw
    refine ⟨(incrementFailedLogin now u req.ipAddress).1,
            (incrementFailedLogin now u req.ipAddress).2,
            ?_, ?_, rfl, rfl, rfl, ?_, ?_⟩
    · simp [Login, hfind, hactive, hlock, hpw]
    · unfold incrementFailedLogin
      by_cases h5 : 5 ≤ u.failedLoginCount + 1 <;> simp [h5]
    · intro h5
      unfold incrementFailedLogin
      simp [h5]
    · intro h5
      have h5n : ¬ 5 ≤ u.failedLoginCount + 1 := by omega
      unfold incrementFailedLogin
      simp [h5n]
  · intro t ht hlt pw
    have hl : lockedAt u now = true := by simp [lockedAt, ht, hlt]
    simp [Login, hfind, hactive, hl, ht]

/-- C2 (witness): `alice` (counter 0) with a wrong password at instant 100,
and the locked user `bob` (locked until 1000) with his correct password at
instant 500. -/
theorem login_lockout_policy_witness :
    (∃ u' ev,
      Login cfgDefault dbAlice [] 100 7 "r" reqAliceWrong =
        ⟨.error .invalidCredentials,
         addSecurityEvent (saveUser dbAlice u') ev, []⟩ ∧
      u'.failedLoginCount = alice.failedLoginCount + 1 ∧
      ev.severity = "medium" ∧ ev.eventType = "login_failed" ∧
      ev.userID = some alice.id ∧
      (5 ≤ alice.failedLoginCount + 1 →
        u'.lockedUntil = some (100 + thirtyMinutes)) ∧
      (alice.failedLoginCount + 1 < 5 → u'.lockedUntil = alice.lockedUntil)) ∧
    Login cfgDefault dbBob [] 500 7 "r"
        { reqBobRight with password := "hunter2hunter2" } =
      ⟨.error (.accountLocked 1000), dbBob, []⟩ :=
  ⟨(login_lockout_policy cfgDefault dbAlice [] 100 7 "r" reqAliceWrong alice
      rfl rfl).1 rfl rfl,
   (login_lockout_policy cfgDefault dbBob [] 500 7 "r" reqBobRight bob
      rfl rfl).2 1000 rfl (by decide) "hunter2hunter2"⟩

/-- C7: an authenticate call whose identifier matches no user fails with
exactly the same error value — and exactly the same formatted message,
"invalid credentials" — as a call whose identifier matches an active,
unlocked user but whose password is wrong, so account existence is never
revealed by the error. -/
theorem login_error_indistinguishable (cfg : AuthConfig) (db : DB)
    (cache : Cache) (now sid : Nat) (rt : String) :
    (∀ req, findUserByIdentifier db req.username = none →
      (Login cfg db cache now sid rt req).res = .error .invalidCredentials) ∧
    (∀ req u, findUserByIdentifier db req.username = some u →
      u.isActive = true → lockedAt u now = false →
      bcryptCompare u.passwordHash req.password = false →
      (Login cfg db cache now sid rt req).res = .error .invalidCredentials) ∧
    errorMessage .invalidCredentials = "invalid credentials" := by
  refine ⟨?_, ?_, rfl⟩
  · intro req h
    simp [Login, h]
  · intro req u hfind hactive hlock hpw
    simp [Login, hfind, hactive, hlock, hpw]

/-- C7 (witness): on the store holding only `alice`, the unknown identifier
"mallory" and a wrong password for `alice` produce the same error. -/
theorem login_error_indistinguishable_witness :
    findUserByIdentifier dbAlice "mallory" = none ∧
    (Login cfgDefault dbAlice [] 100 7 "r" reqMallory).res =
      .error .invalidCredentials ∧
    (Login cfgDefault dbAlice [] 100 7 "r" reqAliceWrong).res =
      .error .invalidCredentials :=
  ⟨rfl,
   (login_error_indistinguishable cfgDefault dbAlice [] 100 7 "r").1
     reqMallory rfl,
   (login_error_indistinguishable cfgDefault dbAlice [] 100 7 "r").2.1
     reqAliceWrong alice rfl rfl rfl rfl⟩

/-- C4: `RefreshToken` fails with the invalid-refresh-token error iff no
session row carries the presented refresh token with revocation unset and
expiry in the future; on success it returns the same, unrotated refresh
token and the found session updated in place with its id, owning user and
refresh token unchanged; and unconditionally the session table keeps exactly
the same ids and owners — no session row is ever created. -/
theorem refreshToken_validity_and_identity (cfg : AuthConfig) (db : DB)
    (cache : Cache) (now : Nat) (rt : String) :
    ((RefreshToken cfg db cache now rt).res = .error .invalidRefreshToken ↔
      ¬ ∃ s ∈ db.sessions, s.refreshToken = rt ∧ s.revokedAt = none ∧
        now < s.expiresAt) ∧
    (∀ s, findSessionByRefresh db rt now = some s →
      (RefreshToken cfg db cache now rt).res =
        .ok { accessToken :=
                generateAccessToken cfg now (sessionUser db s) s.id,
              refreshToken := rt, expiresAt := s.expiresAt,
              user := sessionUser db s } ∧
      (refreshedSession cfg db now s).id = s.id ∧
      (refreshedSession cfg db now s).userID = s.userID ∧
      (refreshedSession cfg db now s).refreshToken = s.refreshToken) ∧
    ((RefreshToken cfg db cache now rt).db.sessions.map (fun s => s.id) =
      db.sessions.map (fun s => s.id)) := by
  cases h0 : findSessionByRefresh db rt now with
  | none =>
    have h := h0
    simp only [findSessionByRefresh] at h
    rw [List.find?_eq_none] at h
    refine ⟨?_, ?_, ?_⟩
    · simp only [RefreshToken, h0]
      constructor
      · intro _ hex
        obtain ⟨s, hs, hrt, hrev, hexp⟩ := hex
        have := h s hs
        simp [hrt, hrev, hexp] at this
      · intro _
        trivial
    · intro s hs
      cases hs
    · simp [RefreshToken, h0]
  | some s =>
    have h := h0
    simp only [findSessionByRefresh] at h
    have hmem := List.mem_of_find?_eq_some h
    have hpred := List.find?_some h
    simp only [Bool.and_eq_true, beq_iff_eq, decide_eq_true_eq] at hpred
    obtain ⟨⟨hrt, hrev⟩, hexp⟩ := hpred
    refine ⟨?_, ?_, ?_⟩
    · simp only [RefreshToken, h0]
      constructor
      · intro hc
        cases hc
      · intro hc
        exact absurd ⟨s, hmem, hrt, hrev, hexp⟩ hc
    · intro s' hs'
      injection hs' with hh
      subst hh
      exact ⟨by simp [RefreshToken, h0], rfl, rfl, rfl⟩
    · simp only [RefreshToken, h0, saveSession, List.map_map]
      apply List.map_congr_left
      intro a _
      by_cases hid : a.id == (refreshedSession cfg db now s).id
      · simp only [Function.comp, hid, if_pos]
        exact (beq_iff_eq.mp hid).symm
      · simp [Function.comp, hid]

/-- C4 (witness): the live session of `dbWithSession` refreshes successfully
at instant 100 with the same refresh token and unchanged identity. -/
theorem refreshToken_validity_and_identity_witness :
    findSessionByRefresh dbWithSession "live-token" 100 = some liveSession ∧
    ((RefreshToken cfgDefault dbWithSession [] 100 "live-token").res =
      .ok { accessToken := generateAccessToken cfgDefault 100
              (sessionUser dbWithSession liveSession) liveSession.id,
            refreshToken := "live-token", expiresAt := liveSession.expiresAt,
            user := sessionUser dbWithSession liveSession } ∧
      (refreshedSession cfgDefault dbWithSession 100 liveSession).id =
        liveSession.id ∧
      (refreshedSession cfgDefault dbWithSession 100 liveSession).userID =
        liveSession.userID ∧
      (refreshedSession cfgDefault dbWithSession 100 liveSession).refreshToken =
        liveSession.refreshToken) :=
  ⟨rfl,
   (refreshToken_validity_and_identity cfgDefault dbWithSession [] 100
     "live-token").2.1 liveSession rfl⟩

end MyNodeCP
